import Mathlib

/-!
Shallow embedding of the `multicloud-vms` Pulumi program.

The program consists of three Python files:
* `src/multicloud_vm/__init__.py` — configuration classes `AWSConfig` and
  `AzureConfig`, and the resource-declaring constructors `EC2Instance.__init__`
  and `AzureVM.__init__`, plus a `__main__` guard;
* `src/__init__.py` — an older, config-less variant of `EC2Instance`;
* `src/__main__.py` — the entry point reading the engine configuration store.

The constructors only declare resources: each is embedded as a pure function
from its arguments (plus the ambient stack name, the result of the one AMI
lookup invoke, and whether a provider argument was passed) to a record of the
declared resources and exported outputs.  Python `x or y` defaulting is
truthiness-based, embedded by `pyOr` / `pyOrD` on `Option String` where `none`
is Python `None` and `some ""` the (falsy) empty string.
-/

/-- Python `a or b` for two optional strings: `b` when `a` is `None` or the
empty string, otherwise `a`. -/
def pyOr (a b : Option String) : Option String :=
  match a with
  | none => b
  | some s => if s = "" then b else some s

/-- Python `a or b` where `b` is a plain (always truthy-typed) string, so the
result is a plain string. -/
def pyOrD (a : Option String) (b : String) : String :=
  match a with
  | none => b
  | some s => if s = "" then b else s

/-- Tag dictionaries, as insertion-ordered association lists. -/
abbrev Tags := List (String × String)

/-- Python `base.update(upd)` on an insertion-ordered dict: keys already in
`base` keep their position and take the value from `upd`; keys only in `upd`
are appended in `upd` order. -/
def dictUpdate (base upd : Tags) : Tags :=
  base.map (fun kv =>
    match upd.find? (fun kv2 => kv2.1 == kv.1) with
    | some kv2 => (kv.1, kv2.2)
    | none => kv)
  ++ upd.filter (fun kv2 => !(base.any (fun kv => kv.1 == kv2.1)))

/-- `AWSConfig` from `src/multicloud_vm/__init__.py` (lines 6-16): a plain
holder of configuration values, with the constructor defaults shown. -/
structure AWSConfig where
  instance_size : String := "t3.micro"
  region : String := "us-east-1"
  os_image : Option String := none
  tags : Tags := []
deriving DecidableEq

/-- The `AWSConfig.__init__` body: `self.tags = tags or {}` sends both `None`
and the (falsy) empty dict to the empty dict, i.e. `Option.getD []`. -/
def AWSConfig.make (instance_size : String := "t3.micro")
    (region : String := "us-east-1") (os_image : Option String := none)
    (tags : Option Tags := none) : AWSConfig :=
  { instance_size := instance_size, region := region, os_image := os_image,
    tags := tags.getD [] }

/-- `AzureConfig` from `src/multicloud_vm/__init__.py` (lines 18-34). -/
structure AzureConfig where
  vm_size : String := "Standard_B1s"
  location : String := "East US"
  os_image : Option String := none
  admin_username : String := "azureuser"
  admin_password : Option String := none
  resource_group_name : Option String := none
  tags : Tags := []
deriving DecidableEq

/-- The `AzureConfig.__init__` body (`tags or {}` as in `AWSConfig.make`). -/
def AzureConfig.make (vm_size : String := "Standard_B1s")
    (location : String := "East US") (os_image : Option String := none)
    (admin_username : String := "azureuser") (admin_password : Option String := none)
    (resource_group_name : Option String := none) (tags : Option Tags := none) :
    AzureConfig :=
  { vm_size := vm_size, location := location, os_image := os_image,
    admin_username := admin_username, admin_password := admin_password,
    resource_group_name := resource_group_name, tags := tags.getD [] }

/-- An argument or export value: a plain string, or a reference to an output
attribute of a previously declared resource (identified by its Pulumi name). -/
inductive Val where
  | str (s : String)
  | ref (res attr : String)
deriving DecidableEq

/-- `aws.ec2.SecurityGroupIngressArgs`. -/
structure SecurityGroupIngressArgs where
  protocol : String
  from_port : Nat
  to_port : Nat
  cidr_blocks : List String
  description : String
deriving DecidableEq

/-- `aws.ec2.SecurityGroupEgressArgs`. -/
structure SecurityGroupEgressArgs where
  protocol : String
  from_port : Nat
  to_port : Nat
  cidr_blocks : List String
  description : String
deriving DecidableEq

/-- The declared `aws.ec2.SecurityGroup`. -/
structure SecurityGroup where
  pulumiName : String
  description : String
  ingress : List SecurityGroupIngressArgs
  egress : List SecurityGroupEgressArgs
deriving DecidableEq

/-- The declared `aws.ec2.Instance`. -/
structure Ec2InstanceArgs where
  pulumiName : String
  ami : String
  instance_type : String
  vpc_security_group_ids : List Val
  tags : Tags
deriving DecidableEq

/-- Everything an `EC2Instance.__init__` run declares and exports.
`providerCreated` records whether an `aws.Provider` was declared (source: only
when no `aws_provider` argument was passed); `amiLookedUp` whether the
`aws.ec2.get_ami` invoke was issued (source: only when `os_image is None`). -/
structure EC2Result where
  providerCreated : Bool
  amiLookedUp : Bool
  security_group : SecurityGroup
  inst : Ec2InstanceArgs
  exports : List (String × Val)
deriving DecidableEq

/-- `EC2Instance.__init__` from `src/multicloud_vm/__init__.py` (lines 36-154).
`stack` models `pulumi.get_stack()` and `amiLookup` the id the
`aws.ec2.get_ami` invoke returns; `aws_provider_given` models whether an
`aws_provider` argument was passed (the provider object itself carries no
further data relevant to the declarations). -/
def ec2Init (stack amiLookup : String) (name : Option String)
    (config : Option AWSConfig) (instance_size region os_image : Option String)
    (aws_provider_given : Bool) (resourcePrefix : String) : EC2Result :=
  -- lines 59-67: use config object if provided, otherwise individual parameters
  let instance_size : String :=
    match config with
    | some c => pyOrD instance_size c.instance_size
    | none => pyOrD instance_size "t3.micro"
  let region : String :=
    match config with
    | some c => pyOrD region c.region
    | none => pyOrD region "us-east-1"
  let os_image : Option String :=
    match config with
    | some c => pyOr os_image c.os_image
    | none => os_image
  let tags : Tags :=
    match config with
    | some c => c.tags
    | none => []
  -- lines 70-71: a provider is created only when none was passed
  let providerCreated := !aws_provider_given
  -- lines 74-86: the AMI lookup runs exactly when os_image is None (an
  -- `is None` check, not truthiness)
  let amiLookedUp := os_image.isNone
  let os_image : String :=
    match os_image with
    | none => amiLookup
    | some s => s
  -- lines 89-125
  let security_group : SecurityGroup :=
    { pulumiName := resourcePrefix ++ "-sg",
      description := "Security group for " ++ resourcePrefix ++ " EC2 instance",
      ingress :=
        [⟨"tcp", 22, 22, ["0.0.0.0/0"], "SSH access"⟩,
         ⟨"tcp", 80, 80, ["0.0.0.0/0"], "HTTP access"⟩,
         ⟨"tcp", 443, 443, ["0.0.0.0/0"], "HTTPS access"⟩],
      egress := [⟨"-1", 0, 0, ["0.0.0.0/0"], "All outbound traffic"⟩] }
  -- line 128
  let instance_name := pyOrD name (resourcePrefix ++ "-" ++ stack)
  -- lines 131-136
  let instance_tags := dictUpdate
    [("Name", instance_name), ("Project", resourcePrefix), ("Environment", stack)]
    tags
  -- lines 138-145
  let inst : Ec2InstanceArgs :=
    { pulumiName := resourcePrefix ++ "-instance",
      ami := os_image,
      instance_type := instance_size,
      vpc_security_group_ids := [Val.ref (resourcePrefix ++ "-sg") "id"],
      tags := instance_tags }
  -- lines 147-154
  { providerCreated := providerCreated,
    amiLookedUp := amiLookedUp,
    security_group := security_group,
    inst := inst,
    exports :=
      [("instance_id", Val.ref (resourcePrefix ++ "-instance") "id"),
       ("instance_public_ip", Val.ref (resourcePrefix ++ "-instance") "public_ip"),
       ("instance_private_ip", Val.ref (resourcePrefix ++ "-instance") "private_ip"),
       ("instance_public_dns", Val.ref (resourcePrefix ++ "-instance") "public_dns"),
       ("region", Val.str region),
       ("instance_type", Val.str instance_size),
       ("ami_id", Val.str os_image)] }

/-- `EC2Instance.__init__` from `src/__init__.py` (lines 5-106): the older
variant with no config object and plain string defaults. -/
def ec2InitOld (stack amiLookup : String) (instance_size region : String)
    (os_image name : Option String) (aws_provider_given : Bool)
    (resourcePrefix : String) : EC2Result :=
  let providerCreated := !aws_provider_given
  let amiLookedUp := os_image.isNone
  let os_image : String :=
    match os_image with
    | none => amiLookup
    | some s => s
  let security_group : SecurityGroup :=
    { pulumiName := resourcePrefix ++ "-sg",
      description := "Security group for " ++ resourcePrefix ++ " EC2 instance",
      ingress :=
        [⟨"tcp", 22, 22, ["0.0.0.0/0"], "SSH access"⟩,
         ⟨"tcp", 80, 80, ["0.0.0.0/0"], "HTTP access"⟩,
         ⟨"tcp", 443, 443, ["0.0.0.0/0"], "HTTPS access"⟩],
      egress := [⟨"-1", 0, 0, ["0.0.0.0/0"], "All outbound traffic"⟩] }
  let instance_name := pyOrD name (resourcePrefix ++ "-" ++ stack)
  let inst : Ec2InstanceArgs :=
    { pulumiName := resourcePrefix ++ "-instance",
      ami := os_image,
      instance_type := instance_size,
      vpc_security_group_ids := [Val.ref (resourcePrefix ++ "-sg") "id"],
      tags := [("Name", instance_name), ("Project", resourcePrefix),
               ("Environment", stack)] }
  { providerCreated := providerCreated,
    amiLookedUp := amiLookedUp,
    security_group := security_group,
    inst := inst,
    exports :=
      [("instance_id", Val.ref (resourcePrefix ++ "-instance") "id"),
       ("instance_public_ip", Val.ref (resourcePrefix ++ "-instance") "public_ip"),
       ("instance_private_ip", Val.ref (resourcePrefix ++ "-instance") "private_ip"),
       ("instance_public_dns", Val.ref (resourcePrefix ++ "-instance") "public_dns"),
       ("region", Val.str region),
       ("instance_type", Val.str instance_size),
       ("ami_id", Val.str os_image)] }

/-- The module body of `src/__main__.py` (and, identically, the `__main__`
guard at the bottom of both `__init__.py` files): read four keys from the
engine configuration store `cfg`, default two of them, and construct an
`EC2Instance`. -/
def mainProgram (stack amiLookup : String) (cfg : String → Option String) :
    EC2Result :=
  let instance_size := pyOrD (cfg "instance_size") "t3.micro"
  let region := pyOrD (cfg "region") "us-east-1"
  let os_image := cfg "os_image"
  let instance_name := cfg "instance_name"
  ec2Init stack amiLookup instance_name none (some instance_size) (some region)
    os_image false "multicloud-vm"

/-- `azure.network.NetworkSecurityGroupSecurityRuleArgs` (the two address
fields are camel-cased). -/
structure NetworkSecurityGroupSecurityRuleArgs where
  name : String
  priority : Nat
  direction : String
  access : String
  protocol : String
  source_port_range : String
  destination_port_range : String
  sourceAddressPrefix : String
  destinationAddressPrefix : String
deriving DecidableEq

/-- `azure.network.NetworkInterfaceIpConfigurationArgs`. -/
structure NetworkInterfaceIpConfigurationArgs where
  name : String
  private_ip_address_allocation : String
  subnet_id : Val
  public_ip_address_id : Val
deriving DecidableEq

/-- `azure.compute.VirtualMachineStorageImageReferenceArgs`. -/
structure StorageImageReferenceArgs where
  publisher : String
  offer : String
  sku : String
  version : String
deriving DecidableEq

/-- `azure.compute.VirtualMachineStorageOsDiskArgs`. -/
structure StorageOsDiskArgs where
  name : String
  caching : String
  create_option : String
  managed_disk_type : String
deriving DecidableEq

/-- `azure.compute.VirtualMachineOsProfileArgs`. -/
structure OsProfileArgs where
  computer_name : String
  admin_username : String
  admin_password : Option String
deriving DecidableEq

/-- `azure.compute.VirtualMachineOsProfileLinuxConfigArgs`. -/
structure OsProfileLinuxConfigArgs where
  disable_password_authentication : Bool
deriving DecidableEq

/-- One declared Azure resource, with the arguments the source passes.  Each
constructor's first argument is the Pulumi resource name. -/
inductive AzureResource where
  | resourceGroup (pulumiName name location : String) (tags : Tags)
  | virtualNetwork (pulumiName name : String) (address_spaces : List String)
      (location : String) (resource_group_name : Val) (tags : Tags)
  | subnet (pulumiName name : String) (resource_group_name virtual_network_name : Val)
      (address_prefixes : List String)
  | networkSecurityGroup (pulumiName name location : String)
      (resource_group_name : Val)
      (security_rules : List NetworkSecurityGroupSecurityRuleArgs) (tags : Tags)
  | publicIp (pulumiName name location : String) (resource_group_name : Val)
      (allocation_method : String) (tags : Tags)
  | networkInterface (pulumiName name location : String) (resource_group_name : Val)
      (ip_configurations : List NetworkInterfaceIpConfigurationArgs) (tags : Tags)
  | subnetNsgAssociation (pulumiName : String)
      (subnet_id network_security_group_id : Val)
  | virtualMachine (pulumiName name location : String) (resource_group_name : Val)
      (network_interface_ids : List Val) (vm_size : String)
      (storage_image_reference : StorageImageReferenceArgs)
      (storage_os_disk : StorageOsDiskArgs) (os_profile : OsProfileArgs)
      (os_profile_linux_config : OsProfileLinuxConfigArgs) (tags : Tags)
deriving DecidableEq

/-- The kind (resource type) of a declared Azure resource. -/
inductive AzureKind where
  | resourceGroup | virtualNetwork | subnet | networkSecurityGroup | publicIp
  | networkInterface | subnetNsgAssociation | virtualMachine
deriving DecidableEq

/-- Kind of each declared resource. -/
def AzureResource.kind : AzureResource → AzureKind
  | .resourceGroup .. => .resourceGroup
  | .virtualNetwork .. => .virtualNetwork
  | .subnet .. => .subnet
  | .networkSecurityGroup .. => .networkSecurityGroup
  | .publicIp .. => .publicIp
  | .networkInterface .. => .networkInterface
  | .subnetNsgAssociation .. => .subnetNsgAssociation
  | .virtualMachine .. => .virtualMachine

/-- Everything an `AzureVM.__init__` run declares and exports; `resources` is
in declaration order.  `providerCreated` records whether an `azure.Provider`
was declared (source: only when no `azure_provider` argument was passed). -/
structure AzureResult where
  providerCreated : Bool
  resources : List AzureResource
  exports : List (String × Val)
deriving DecidableEq

/-- `AzureVM.__init__` from `src/multicloud_vm/__init__.py` (lines 156-370).
`stack` models `pulumi.get_stack()`; `azure_provider_given` models whether an
`azure_provider` argument was passed. -/
def azureInit (stack : String) (name : Option String) (config : Option AzureConfig)
    (vm_size location os_image admin_username admin_password
      resource_group_name : Option String)
    (azure_provider_given : Bool) (resourcePrefix : String) : AzureResult :=
  -- lines 185-198: use config object if provided, otherwise individual parameters
  let vm_size : String :=
    match config with
    | some c => pyOrD vm_size c.vm_size
    | none => pyOrD vm_size "Standard_B1s"
  let location : String :=
    match config with
    | some c => pyOrD location c.location
    | none => pyOrD location "East US"
  let os_image : Option String :=
    match config with
    | some c => pyOr os_image c.os_image
    | none => os_image
  let admin_username : String :=
    match config with
    | some c => pyOrD admin_username c.admin_username
    | none => pyOrD admin_username "azureuser"
  let admin_password : Option String :=
    match config with
    | some c => pyOr admin_password c.admin_password
    | none => admin_password
  let resource_group_name : Option String :=
    match config with
    | some c => pyOr resource_group_name c.resource_group_name
    | none => some (pyOrD resource_group_name (resourcePrefix ++ "-rg"))
  let tags : Tags :=
    match config with
    | some c => c.tags
    | none => []
  -- lines 201-202: a provider is created only when none was passed
  let providerCreated := !azure_provider_given
  -- lines 205-206: `if not resource_group_name: resource_group_name = f"..-rg"`
  let resource_group_name : String :=
    pyOrD resource_group_name (resourcePrefix ++ "-rg")
  let rgRef : Val := Val.ref (resourcePrefix ++ "-rg") "name"
  -- lines 208-214
  let rg := AzureResource.resourceGroup (resourcePrefix ++ "-rg")
    resource_group_name location tags
  -- lines 217-225
  let vnet := AzureResource.virtualNetwork (resourcePrefix ++ "-vnet")
    (resourcePrefix ++ "-vnet") ["10.0.0.0/16"] location rgRef tags
  -- lines 228-235
  let snet := AzureResource.subnet (resourcePrefix ++ "-subnet")
    (resourcePrefix ++ "-subnet") rgRef
    (Val.ref (resourcePrefix ++ "-vnet") "name") ["10.0.1.0/24"]
  -- lines 238-280
  let nsg := AzureResource.networkSecurityGroup (resourcePrefix ++ "-nsg")
    (resourcePrefix ++ "-nsg") location rgRef
    [⟨"SSH", 1001, "Inbound", "Allow", "Tcp", "*", "22", "*", "*"⟩,
     ⟨"HTTP", 1002, "Inbound", "Allow", "Tcp", "*", "80", "*", "*"⟩,
     ⟨"HTTPS", 1003, "Inbound", "Allow", "Tcp", "*", "443", "*", "*"⟩]
    tags
  -- lines 283-291
  let pip := AzureResource.publicIp (resourcePrefix ++ "-publicip")
    (resourcePrefix ++ "-publicip") location rgRef "Dynamic" tags
  -- lines 294-307
  let nic := AzureResource.networkInterface (resourcePrefix ++ "-nic")
    (resourcePrefix ++ "-nic") location rgRef
    [⟨resourcePrefix ++ "-ipconfig", "Dynamic",
      Val.ref (resourcePrefix ++ "-subnet") "id",
      Val.ref (resourcePrefix ++ "-publicip") "id"⟩]
    tags
  -- lines 310-315
  let assoc := AzureResource.subnetNsgAssociation
    (resourcePrefix ++ "-subnet-nsg-association")
    (Val.ref (resourcePrefix ++ "-subnet") "id")
    (Val.ref (resourcePrefix ++ "-nsg") "id")
  -- line 318
  let vm_name := pyOrD name (resourcePrefix ++ "-" ++ stack)
  -- lines 321-326
  let vm_tags := dictUpdate
    [("Name", vm_name), ("Project", resourcePrefix), ("Environment", stack)]
    tags
  -- lines 329-330: the source resolves a default Ubuntu image here, but the
  -- resolved value is never used by anything that follows
  let _os_image_resolved : String :=
    match os_image with
    | none => "Canonical:0001-com-ubuntu-server-focal:20_04-lts-gen2:latest"
    | some s => s
  -- lines 332-361: the storage image reference is the hard-coded literal below
  let vm := AzureResource.virtualMachine (resourcePrefix ++ "-vm") vm_name
    location rgRef [Val.ref (resourcePrefix ++ "-nic") "id"] vm_size
    ⟨"Canonical", "0001-com-ubuntu-server-focal", "20_04-lts-gen2", "latest"⟩
    ⟨vm_name ++ "-osdisk", "ReadWrite", "FromImage", "Standard_LRS"⟩
    ⟨vm_name, admin_username, admin_password⟩
    ⟨false⟩ vm_tags
  -- lines 363-370
  { providerCreated := providerCreated,
    resources := [rg, vnet, snet, nsg, pip, nic, assoc, vm],
    exports :=
      [("vm_id", Val.ref (resourcePrefix ++ "-vm") "id"),
       ("vm_public_ip", Val.ref (resourcePrefix ++ "-publicip") "ip_address"),
       ("vm_private_ip", Val.ref (resourcePrefix ++ "-nic") "private_ip_address"),
       ("vm_location", Val.str location),
       ("vm_size", Val.str vm_size),
       ("vm_name", Val.str vm_name),
       ("resource_group_name", Val.ref (resourcePrefix ++ "-rg") "name")] }

/-- The security rules of a declared network security group, `none` for any
other resource. -/
def AzureResource.nsgRules :
    AzureResource → Option (List NetworkSecurityGroupSecurityRuleArgs)
  | .networkSecurityGroup _ _ _ _ rules _ => some rules
  | _ => none

/-- The storage image reference of a declared virtual machine. -/
def AzureResource.vmImageRef : AzureResource → Option StorageImageReferenceArgs
  | .virtualMachine _ _ _ _ _ _ img _ _ _ _ => some img
  | _ => none

/-- The `vm_size` of a declared virtual machine. -/
def AzureResource.vmSize : AzureResource → Option String
  | .virtualMachine _ _ _ _ _ sz _ _ _ _ _ => some sz
  | _ => none

/-- The `os_profile` of a declared virtual machine. -/
def AzureResource.vmOsProfile : AzureResource → Option OsProfileArgs
  | .virtualMachine _ _ _ _ _ _ _ _ prof _ _ => some prof
  | _ => none

/-- The `name` argument of a declared resource group. -/
def AzureResource.rgName : AzureResource → Option String
  | .resourceGroup _ n _ _ => some n
  | _ => none

/-- The `location` argument of a declared resource group. -/
def AzureResource.rgLocation : AzureResource → Option String
  | .resourceGroup _ _ l _ => some l
  | _ => none

/-- Look an export up by name. -/
def exportLookup (es : List (String × Val)) (k : String) : Option Val :=
  (es.find? (fun e => e.1 == k)).map Prod.snd

/-- The fixed order in which `AzureVM.__init__` declares resources. -/
def azureKindSequence : List AzureKind :=
  [.resourceGroup, .virtualNetwork, .subnet, .networkSecurityGroup, .publicIp,
   .networkInterface, .subnetNsgAssociation, .virtualMachine]

/-- The seven-resource order named by the specification (it omits the
subnet-NSG association). -/
def specAzureOrder : List AzureKind :=
  [.resourceGroup, .virtualNetwork, .subnet, .networkSecurityGroup, .publicIp,
   .networkInterface, .virtualMachine]

/-- The ingress rules of the AWS security group: inbound TCP from 0.0.0.0/0 on
exactly ports 22, 80 and 443. -/
def ec2IngressRules : List SecurityGroupIngressArgs :=
  [⟨"tcp", 22, 22, ["0.0.0.0/0"], "SSH access"⟩,
   ⟨"tcp", 80, 80, ["0.0.0.0/0"], "HTTP access"⟩,
   ⟨"tcp", 443, 443, ["0.0.0.0/0"], "HTTPS access"⟩]

/-- The egress rules of the AWS security group: all outbound traffic. -/
def ec2EgressRules : List SecurityGroupEgressArgs :=
  [⟨"-1", 0, 0, ["0.0.0.0/0"], "All outbound traffic"⟩]

/-- The inbound rules of the Azure network security group: TCP from any source
to exactly destination ports 22, 80 and 443. -/
def azureNsgRules : List NetworkSecurityGroupSecurityRuleArgs :=
  [⟨"SSH", 1001, "Inbound", "Allow", "Tcp", "*", "22", "*", "*"⟩,
   ⟨"HTTP", 1002, "Inbound", "Allow", "Tcp", "*", "80", "*", "*"⟩,
   ⟨"HTTPS", 1003, "Inbound", "Allow", "Tcp", "*", "443", "*", "*"⟩]

/-- The seven export names of `EC2Instance.__init__`. -/
def ec2ExportNames : List String :=
  ["instance_id", "instance_public_ip", "instance_private_ip",
   "instance_public_dns", "region", "instance_type", "ami_id"]

/-- The seven export names of `AzureVM.__init__`. -/
def azureExportNames : List String :=
  ["vm_id", "vm_public_ip", "vm_private_ip", "vm_location", "vm_size",
   "vm_name", "resource_group_name"]

/-- The resolution precedence exactly as the specification words it — "use
explicit argument, else configuration object field, else hard-coded default" —
a full fall-through chain: the argument when truthy, else the config field
when a config is given and the field is truthy, else the default.
`cfgField` is `none` when no config is given or the field is `None`. -/
def specChainResolve (arg cfgField : Option String) (dflt : String) : String :=
  pyOrD (pyOr arg cfgField) dflt

/-- The resolution rule the code actually implements for every parameter
except `resource_group_name`: the argument when truthy, else — when a config
object is given — that config's field verbatim (the hard-coded default is not
consulted), else the default.  `cfgField` is `none` exactly when no config
object is given. -/
def codeResolve (arg : Option String) (cfgField : Option String)
    (dflt : String) : String :=
  match cfgField with
  | some f => pyOrD arg f
  | none => pyOrD arg dflt

/-- Python `x or y` is unchanged when the falsy empty string replaces `None`
on the left. -/
theorem pyOr_empty (b : Option String) : pyOr (some "") b = pyOr none b := rfl

/-- Defaulting `x or d` is unchanged when the falsy empty string replaces
`None` on the left. -/
theorem pyOrD_empty (d : String) : pyOrD (some "") d = pyOrD none d := rfl

/-- Defaulting is the identity on truthy strings. -/
theorem pyOrD_some_ne (s d : String) (h : s ≠ "") : pyOrD (some s) d = s := by
  simp [pyOrD, h]

/-- Re-defaulting an already defaulted value with the same default changes
nothing: the `if not resource_group_name` check after the no-config branch is
the identity. -/
theorem pyOrD_some_pyOrD (a : Option String) (d : String) :
    pyOrD (some (pyOrD a d)) d = pyOrD (pyOr a none) d := by
  cases a with
  | none => simp [pyOr, pyOrD]
  | some s =>
    by_cases h : s = "" <;> simp [pyOr, pyOrD, h]

/-- Updating with the empty dict changes nothing. -/
theorem dictUpdate_nil (base : Tags) : dictUpdate base [] = base := by
  simp [dictUpdate]

/-- C1 (counterexample): the spec's uniform precedence "explicit argument,
else config field, else hard-coded default" fails on the code.  With a config
whose `instance_size` field is the empty string and no explicit argument, the
chain's last step would yield the hard-coded default `"t3.micro"`, but
`EC2Instance.__init__` resolves `instance_size` to the config field verbatim,
declaring an instance of type `""`. -/
theorem c1_counterexample :
    (ec2Init "dev" "ami-0abc" none
      (some { instance_size := "", region := "us-east-1", os_image := none,
              tags := [] })
      none none none false "multicloud-vm").inst.instance_type
      ≠ specChainResolve none (some "") "t3.micro" := by decide

/-- C1 (amended): each parameter is resolved with the precedence "explicit
argument if truthy, else the config object's field if a config is given, else
the hard-coded default", where for `instance_size`, `region`, `vm_size`,
`location` and `admin_username` the hard-coded default applies only when no
config object is given (a given config's field is used verbatim, even when
falsy), while `resource_group_name` alone falls through to the default
`resource_prefix ++ "-rg"` also when both the argument and the config field
are falsy; no other decision logic affects the resolved values. -/
theorem c1_resolution_amended (stack amiLookup : String)
    (awsName azName : Option String) (awsCfg : Option AWSConfig)
    (azCfg : Option AzureConfig)
    (instance_size region os_image vm_size location az_os_image admin_username
      admin_password resource_group_name : Option String)
    (pg qg : Bool) (pre : String) :
    (ec2Init stack amiLookup awsName awsCfg instance_size region os_image pg
        pre).inst.instance_type
      = codeResolve instance_size (awsCfg.map AWSConfig.instance_size) "t3.micro"
    ∧ exportLookup (ec2Init stack amiLookup awsName awsCfg instance_size region
        os_image pg pre).exports "region"
      = some (Val.str (codeResolve region (awsCfg.map AWSConfig.region)
          "us-east-1"))
    ∧ (azureInit stack azName azCfg vm_size location az_os_image admin_username
        admin_password resource_group_name qg pre).resources.filterMap
          AzureResource.vmSize
      = [codeResolve vm_size (azCfg.map AzureConfig.vm_size) "Standard_B1s"]
    ∧ (azureInit stack azName azCfg vm_size location az_os_image admin_username
        admin_password resource_group_name qg pre).resources.filterMap
          AzureResource.rgLocation
      = [codeResolve location (azCfg.map AzureConfig.location) "East US"]
    ∧ ((azureInit stack azName azCfg vm_size location az_os_image admin_username
        admin_password resource_group_name qg pre).resources.filterMap
          AzureResource.vmOsProfile).map OsProfileArgs.admin_username
      = [codeResolve admin_username (azCfg.map AzureConfig.admin_username)
          "azureuser"]
    ∧ (azureInit stack azName azCfg vm_size location az_os_image admin_username
        admin_password resource_group_name qg pre).resources.filterMap
          AzureResource.rgName
      = [specChainResolve resource_group_name
          (azCfg.bind AzureConfig.resource_group_name) (pre ++ "-rg")] := by
  cases awsCfg <;> cases azCfg <;>
    exact ⟨rfl, rfl, rfl, rfl, rfl, by
      first
        | rfl
        | exact congrArg (fun s => [s])
            (pyOrD_some_pyOrD resource_group_name (pre ++ "-rg"))⟩

/-- C2 (code bug): the resolved `os_image` of `AzureVM.__init__` is never
consumed.  At the failing input `os_image = "Debian:11:bullseye:latest"` the
declared virtual machine still carries the hard-coded Canonical Ubuntu focal
storage image reference, and the whole declaration result is identical to the
one for `os_image = None`. -/
theorem c2_os_image_unused :
    (azureInit "dev" none none none none (some "Debian:11:bullseye:latest")
        none none none false "multicloud-vm").resources.filterMap
          AzureResource.vmImageRef
      = [⟨"Canonical", "0001-com-ubuntu-server-focal", "20_04-lts-gen2",
          "latest"⟩]
    ∧ azureInit "dev" none none none none (some "Debian:11:bullseye:latest")
        none none none false "multicloud-vm"
      = azureInit "dev" none none none none none none none none false
          "multicloud-vm" :=
  ⟨by decide, by decide⟩

/-- C3: for every input, `AzureVM.__init__` declares its resources as the
fixed sequence resource group, virtual network, subnet, network security
group, public IP, network interface, subnet-NSG association, virtual machine;
in particular the seven kinds the claim names appear in exactly the claimed
relative order. -/
theorem c3_azure_declaration_order (stack : String) (name : Option String)
    (config : Option AzureConfig)
    (vm_size location os_image admin_username admin_password
      resource_group_name : Option String) (qg : Bool) (pre : String) :
    (azureInit stack name config vm_size location os_image admin_username
        admin_password resource_group_name qg pre).resources.map
          AzureResource.kind
      = azureKindSequence
    ∧ specAzureOrder.Sublist ((azureInit stack name config vm_size location
        os_image admin_username admin_password resource_group_name qg
          pre).resources.map AzureResource.kind) := by
  refine ⟨rfl, ?_⟩
  rw [show (azureInit stack name config vm_size location os_image
      admin_username admin_password resource_group_name qg pre).resources.map
        AzureResource.kind = azureKindSequence from rfl]
  decide

/-- C4 (counterexample): the claim that the virtual network, subnet, NIC and
public IP are optional is false — there is no input to `AzureVM.__init__`
under which any of these four resources is left undeclared. -/
theorem c4_counterexample :
    ¬ ∃ (stack : String) (name : Option String) (config : Option AzureConfig)
        (vm_size location os_image admin_username admin_password
          resource_group_name : Option String) (qg : Bool) (pre : String)
        (k : AzureKind),
        k ∈ [AzureKind.virtualNetwork, AzureKind.subnet,
             AzureKind.networkInterface, AzureKind.publicIp]
        ∧ k ∉ (azureInit stack name config vm_size location os_image
            admin_username admin_password resource_group_name qg
              pre).resources.map AzureResource.kind := by
  rintro ⟨stack, name, config, a, b, c, d, e, f, qg, pre, k, hk, habs⟩
  rw [show (azureInit stack name config a b c d e f qg pre).resources.map
      AzureResource.kind = azureKindSequence from rfl] at habs
  fin_cases hk <;> exact habs (by decide)

/-- C4 (amended): the virtual network, subnet, NIC and public IP are mandatory
parts of the Azure topology — for every input to `AzureVM.__init__` all four
are declared. -/
theorem c4_always_declared (stack : String) (name : Option String)
    (config : Option AzureConfig)
    (vm_size location os_image admin_username admin_password
      resource_group_name : Option String) (qg : Bool) (pre : String) :
    [AzureKind.virtualNetwork, AzureKind.subnet, AzureKind.networkInterface,
     AzureKind.publicIp]
      ⊆ (azureInit stack name config vm_size location os_image admin_username
          admin_password resource_group_name qg pre).resources.map
            AzureResource.kind := by
  rw [show (azureInit stack name config vm_size location os_image
      admin_username admin_password resource_group_name qg pre).resources.map
        AzureResource.kind = azureKindSequence from rfl]
  decide

/-- C5: when run as the main program, exactly the configuration keys
`instance_size`, `region`, `os_image` and `instance_name` are read (the result
depends on no other key of the store), `instance_size` defaults to
`"t3.micro"` and `region` to `"us-east-1"` when absent, and the resolved
values are passed to the `EC2Instance` constructor. -/
theorem c5_main_config_keys (stack amiLookup : String)
    (cfg cfg2 : String → Option String)
    (h1 : cfg "instance_size" = cfg2 "instance_size")
    (h2 : cfg "region" = cfg2 "region")
    (h3 : cfg "os_image" = cfg2 "os_image")
    (h4 : cfg "instance_name" = cfg2 "instance_name") :
    mainProgram stack amiLookup cfg = mainProgram stack amiLookup cfg2
    ∧ mainProgram stack amiLookup cfg
      = ec2Init stack amiLookup (cfg "instance_name") none
          (some (pyOrD (cfg "instance_size") "t3.micro"))
          (some (pyOrD (cfg "region") "us-east-1")) (cfg "os_image") false
          "multicloud-vm"
    ∧ (cfg "instance_size" = none →
        (mainProgram stack amiLookup cfg).inst.instance_type = "t3.micro")
    ∧ (cfg "region" = none →
        exportLookup (mainProgram stack amiLookup cfg).exports "region"
          = some (Val.str "us-east-1")) := by
  refine ⟨?_, rfl, ?_, ?_⟩
  · simp only [mainProgram]
    rw [h1, h2, h3, h4]
  · intro h
    simp only [mainProgram, h]
    rfl
  · intro h
    simp only [mainProgram, h]
    rfl

/-- C5 (witness): with an empty configuration store, the main program declares
an EC2 instance with the defaulted size and region. -/
theorem c5_witness :
    mainProgram "dev" "ami-0abc" (fun _ => none)
      = ec2Init "dev" "ami-0abc" none none (some "t3.micro")
          (some "us-east-1") none false "multicloud-vm"
    ∧ (mainProgram "dev" "ami-0abc" (fun _ => none)).inst.instance_type
      = "t3.micro" := by
  have h := c5_main_config_keys "dev" "ami-0abc" (fun _ => none)
    (fun _ => none) rfl rfl rfl rfl
  exact ⟨h.2.1, h.2.2.1 rfl⟩

/-- C6: for every input, `EC2Instance.__init__` exports exactly the seven
names `instance_id`, `instance_public_ip`, `instance_private_ip`,
`instance_public_dns`, `region`, `instance_type`, `ami_id`, and
`AzureVM.__init__` exports exactly the seven names `vm_id`, `vm_public_ip`,
`vm_private_ip`, `vm_location`, `vm_size`, `vm_name`, `resource_group_name`,
in this order, independently of the inputs. -/
theorem c6_fixed_exports (stack amiLookup : String)
    (awsName azName : Option String) (awsCfg : Option AWSConfig)
    (azCfg : Option AzureConfig)
    (instance_size region os_image vm_size location az_os_image admin_username
      admin_password resource_group_name : Option String)
    (pg qg : Bool) (pre : String) :
    (ec2Init stack amiLookup awsName awsCfg instance_size region os_image pg
        pre).exports.map Prod.fst = ec2ExportNames
    ∧ (azureInit stack azName azCfg vm_size location az_os_image admin_username
        admin_password resource_group_name qg pre).exports.map Prod.fst
      = azureExportNames :=
  ⟨rfl, rfl⟩

/-- C7: both constructors are embedded as total functions (no error value in
their result type, mirroring that the source raises nothing of its own and
performs no validation), and for every combination of arguments — including
empty or malformed strings — every declaration and export is issued: the EC2
run always declares the security group (with its 3 ingress and 1 egress
rules) and the instance and issues its 7 exports, and the Azure run always
declares its 8 resources and issues its 7 exports. -/
theorem c7_unconditional_declarations (stack amiLookup : String)
    (awsName azName : Option String) (awsCfg : Option AWSConfig)
    (azCfg : Option AzureConfig)
    (instance_size region os_image vm_size location az_os_image admin_username
      admin_password resource_group_name : Option String)
    (pg qg : Bool) (pre : String) :
    (ec2Init stack amiLookup awsName awsCfg instance_size region os_image pg
        pre).exports.length = 7
    ∧ (ec2Init stack amiLookup awsName awsCfg instance_size region os_image pg
        pre).security_group.ingress.length = 3
    ∧ (ec2Init stack amiLookup awsName awsCfg instance_size region os_image pg
        pre).security_group.egress.length = 1
    ∧ (ec2Init stack amiLookup awsName awsCfg instance_size region os_image pg
        pre).inst.pulumiName = pre ++ "-instance"
    ∧ (azureInit stack azName azCfg vm_size location az_os_image admin_username
        admin_password resource_group_name qg pre).resources.length = 8
    ∧ (azureInit stack azName azCfg vm_size location az_os_image admin_username
        admin_password resource_group_name qg pre).exports.length = 7 :=
  ⟨rfl, rfl, rfl, rfl, rfl, rfl⟩

/-- C8: with no config object and truthy `instance_size` and `region`, the
older `EC2Instance` of `src/__init__.py` and the `EC2Instance` of
`src/multicloud_vm/__init__.py` declare the identical security group and
instance (same AMI resolution, same rules, same tags) and issue the identical
exports. -/
theorem c8_old_new_agree (stack amiLookup instance_size region : String)
    (os_image name : Option String) (pg : Bool) (pre : String)
    (hs : instance_size ≠ "") (hr : region ≠ "") :
    ec2InitOld stack amiLookup instance_size region os_image name pg pre
      = ec2Init stack amiLookup name none (some instance_size) (some region)
          os_image pg pre := by
  simp only [ec2Init, ec2InitOld, pyOrD_some_ne instance_size "t3.micro" hs,
    pyOrD_some_ne region "us-east-1" hr, dictUpdate_nil]

/-- C8 (witness): the two constructors agree at the default size and region. -/
theorem c8_witness :
    ("t3.micro" : String) ≠ "" ∧ ("us-east-1" : String) ≠ ""
    ∧ ec2InitOld "dev" "ami-0abc" "t3.micro" "us-east-1" none none false
        "multicloud-vm"
      = ec2Init "dev" "ami-0abc" none none (some "t3.micro")
          (some "us-east-1") none false "multicloud-vm" :=
  ⟨by decide, by decide,
    c8_old_new_agree "dev" "ami-0abc" "t3.micro" "us-east-1" none none false
      "multicloud-vm" (by decide) (by decide)⟩

/-- C9 (counterexample): truthiness-equivalence of `''` and `None` fails for
`os_image` of `EC2Instance.__init__` when no config is given: the empty
string, unlike `None`, is not reassigned and skips the `is None` AMI lookup,
so the instance is declared with `ami = ""` instead of the looked-up AMI. -/
theorem c9_counterexample :
    ec2Init "dev" "ami-0abc" none none none none (some "") false
        "multicloud-vm"
      ≠ ec2Init "dev" "ami-0abc" none none none none none false
          "multicloud-vm" := by decide

/-- C9 (amended): passing the empty string is equivalent to passing `None` for
`instance_size`, `region` and `name` of `EC2Instance.__init__` and for
`vm_size`, `location`, `os_image`, `admin_username`, `resource_group_name` and
`name` of `AzureVM.__init__`, and for `os_image` of `EC2Instance.__init__` and
`admin_password` of `AzureVM.__init__` when a config object is given; the two
exceptions are `os_image` of `EC2Instance.__init__` without a config (the
empty string skips the AMI lookup) and `admin_password` of `AzureVM.__init__`
without a config (the empty string reaches the OS profile verbatim). -/
theorem c9_truthiness_amended (stack amiLookup : String)
    (name : Option String) (awsCfg : Option AWSConfig)
    (azCfg : Option AzureConfig) (c : AWSConfig) (c2 : AzureConfig)
    (instance_size region os_image vm_size location az_os_image admin_username
      admin_password resource_group_name : Option String)
    (pg qg : Bool) (pre : String) :
    ec2Init stack amiLookup name awsCfg (some "") region os_image pg pre
      = ec2Init stack amiLookup name awsCfg none region os_image pg pre
    ∧ ec2Init stack amiLookup name awsCfg instance_size (some "") os_image pg
        pre
      = ec2Init stack amiLookup name awsCfg instance_size none os_image pg pre
    ∧ ec2Init stack amiLookup (some "") awsCfg instance_size region os_image
        pg pre
      = ec2Init stack amiLookup none awsCfg instance_size region os_image pg
          pre
    ∧ ec2Init stack amiLookup name (some c) instance_size region (some "") pg
        pre
      = ec2Init stack amiLookup name (some c) instance_size region none pg pre
    ∧ azureInit stack name azCfg (some "") location az_os_image admin_username
        admin_password resource_group_name qg pre
      = azureInit stack name azCfg none location az_os_image admin_username
          admin_password resource_group_name qg pre
    ∧ azureInit stack name azCfg vm_size (some "") az_os_image admin_username
        admin_password resource_group_name qg pre
      = azureInit stack name azCfg vm_size none az_os_image admin_username
          admin_password resource_group_name qg pre
    ∧ azureInit stack name azCfg vm_size location (some "") admin_username
        admin_password resource_group_name qg pre
      = azureInit stack name azCfg vm_size location none admin_username
          admin_password resource_group_name qg pre
    ∧ azureInit stack name azCfg vm_size location az_os_image (some "")
        admin_password resource_group_name qg pre
      = azureInit stack name azCfg vm_size location az_os_image none
          admin_password resource_group_name qg pre
    ∧ azureInit stack name azCfg vm_size location az_os_image admin_username
        admin_password (some "") qg pre
      = azureInit stack name azCfg vm_size location az_os_image admin_username
          admin_password none qg pre
    ∧ azureInit stack (some "") azCfg vm_size location az_os_image
        admin_username admin_password resource_group_name qg pre
      = azureInit stack none azCfg vm_size location az_os_image admin_username
          admin_password resource_group_name qg pre
    ∧ azureInit stack name (some c2) vm_size location az_os_image
        admin_username (some "") resource_group_name qg pre
      = azureInit stack name (some c2) vm_size location az_os_image
          admin_username none resource_group_name qg pre := by
  cases awsCfg <;> cases azCfg <;>
    exact ⟨rfl, rfl, rfl, rfl, rfl, rfl, rfl, rfl, rfl, rfl, rfl⟩

/-- C10: for every input, the AWS security group allows inbound TCP from
0.0.0.0/0 on exactly ports 22, 80 and 443 and all outbound traffic, and the
Azure network security group allows inbound TCP from any source on exactly
destination ports 22, 80 and 443; no input changes these rules. -/
theorem c10_fixed_firewall_rules (stack amiLookup : String)
    (awsName azName : Option String) (awsCfg : Option AWSConfig)
    (azCfg : Option AzureConfig)
    (instance_size region os_image vm_size location az_os_image admin_username
      admin_password resource_group_name : Option String)
    (pg qg : Bool) (pre : String) :
    (ec2Init stack amiLookup awsName awsCfg instance_size region os_image pg
        pre).security_group.ingress = ec2IngressRules
    ∧ (ec2Init stack amiLookup awsName awsCfg instance_size region os_image pg
        pre).security_group.egress = ec2EgressRules
    ∧ (azureInit stack azName azCfg vm_size location az_os_image admin_username
        admin_password resource_group_name qg pre).resources.filterMap
          AzureResource.nsgRules
      = [azureNsgRules] :=
  ⟨rfl, rfl, rfl⟩
